import Mathlib

/-!
Verification of the citation query and filtering layer of the
SF-Most-Wanted-Parkers repository.

The development shallowly embeds the data model (`Citation`,
`PlateDetailsRow`, `LeaderboardEntry`, `HotspotRow`, per
`src/scripts/schema.sql` and `src/types`), the query functions of
`src/lib/db.ts` (both the early revision with the 2025-01-01 date floor and
the later revision with the 2020-01-01 floor plus JavaScript year/month
post-filters), the page-level wrappers (`getPlateDetails` of
`src/app/plate/[plateNumber]/page.tsx`, `getLeaderboardData` of the home
page), and the one-off citation-removal SQL script.

Timestamps are modelled as natural-number keys produced by a strict ISO
parser: the key of `YYYY-MM-DDTHH:MM:SS` is
`((((Y*100+M)*100+D)*100+h)*100+m)*100+s`, which orders exactly as the
chronological order the JavaScript `new Date` comparison in the source uses
on these strings.  Money amounts are modelled as integer numbers of cents, which is exact because the source only ever adds and subtracts them.
-/

namespace SFParkers

/-- A single parking citation record, as stored in the JSONB `citations`
array of the `plate_details` table.  `date` and `fine_amount` are nullable
in the data, hence `Option`. -/
structure Citation where
  date : Option String
  violation : String
  fine_amount : Option Int
  location : String
  citation_number : String
  latitude : Option ℚ
  longitude : Option ℚ
deriving Repr, DecidableEq

/-- Numeric value of a list of decimal digit characters. -/
def digitsToNat (cs : List Char) : Nat :=
  cs.foldl (fun n c => n * 10 + (c.toNat - 48)) 0

/-- Parse a non-empty all-digit character list; `none` otherwise. -/
def parseDigits (cs : List Char) : Option Nat :=
  if cs ≠ [] ∧ cs.all Char.isDigit then some (digitsToNat cs) else none

/-- Parse the optional time part of an ISO timestamp: either nothing
(midnight) or a separator (`T` or space) followed by `HH:MM:SS`. -/
def parseTimeChars (cs : List Char) : Option Nat :=
  match cs with
  | [] => some 0
  | [sep, h1, h2, c1, m1, m2, c2, s1, s2] =>
    if (sep = 'T' ∨ sep = ' ') ∧ c1 = ':' ∧ c2 = ':' then
      match parseDigits [h1, h2], parseDigits [m1, m2], parseDigits [s1, s2] with
      | some h, some m, some s =>
        if h < 24 ∧ m < 60 ∧ s < 60 then some ((h * 100 + m) * 100 + s) else none
      | _, _, _ => none
    else none
  | _ => none

/-- Parse an ISO timestamp string `YYYY-MM-DD[THH:MM:SS]` into an ordered
numeric key; `none` when the string is not a valid timestamp (the
JavaScript `new Date` comparison in the source likewise rejects invalid
strings, since `NaN` compares false). -/
def parseTimestamp (s : String) : Option Nat :=
  match s.data with
  | y1 :: y2 :: y3 :: y4 :: a :: mo1 :: mo2 :: b :: d1 :: d2 :: rest =>
    if a = '-' ∧ b = '-' then
      match parseDigits [y1, y2, y3, y4], parseDigits [mo1, mo2],
            parseDigits [d1, d2], parseTimeChars rest with
      | some y, some mo, some d, some t =>
        if 1 ≤ mo ∧ mo ≤ 12 ∧ 1 ≤ d ∧ d ≤ 31 then
          some ((((y * 100 + mo) * 100 + d)) * 1000000 + t)
        else none
      | _, _, _, _ => none
    else none
  | _ => none

/-- Key of the date floor `2025-01-01T00:00:00` used by the early revision
of `db.ts` and by `page.tsx`. -/
def floor2025 : Nat := 20250101000000

/-- Key of the date floor `2020-01-01T00:00:00` used by the later revision
of `db.ts`. -/
def floor2020 : Nat := 20200101000000

example : parseTimestamp "2025-01-01T00:00:00" = some floor2025 := by decide
example : parseTimestamp "2020-01-01" = some floor2020 := by decide
example : parseTimestamp "2025-09-15T10:00:00" = some 20250915100000 := by decide

/-- The date-floor predicate shared by `getPlateDetails`
(`page.tsx` lines 39-43) and the citations API route: a citation is kept
iff its date is non-null and parses to a timestamp at or after the floor. -/
def dateFloorKeep (parse : String → Option Nat) (floorD : Nat) (c : Citation) : Bool :=
  match c.date with
  | none => false
  | some d =>
    match parse d with
    | none => false
    | some t => floorD ≤ t

/-- The date-floor filter applied to a citation list. -/
def dateFloorFilter (parse : String → Option Nat) (floorD : Nat)
    (cs : List Citation) : List Citation :=
  cs.filter (dateFloorKeep parse floorD)

lemma dateFloorKeep_eq_true_iff (parse : String → Option Nat) (floorD : Nat)
    (c : Citation) :
    dateFloorKeep parse floorD c = true ↔
      ∃ d t, c.date = some d ∧ parse d = some t ∧ floorD ≤ t := by
  unfold dateFloorKeep
  cases hc : c.date with
  | none => simp
  | some d =>
    cases hp : parse d with
    | none => simp [hp]
    | some t => simp [hp, decide_eq_true_eq]

lemma dateFloorFilter_idem_aux (parse : String → Option Nat) (floorD : Nat)
    (cs : List Citation) :
    dateFloorFilter parse floorD (dateFloorFilter parse floorD cs) =
      dateFloorFilter parse floorD cs := by
  simp [dateFloorFilter, List.filter_filter]

/-- C1: for every citation sequence and date floor, the date-floor filter
keeps a citation in its output iff the citation occurs in the input, its
date is non-null, and the date parses to a timestamp at or after the
floor; null-dated and pre-floor citations are excluded. -/
theorem dateFloorFilter_mem_iff (parse : String → Option Nat) (floorD : Nat)
    (cs : List Citation) (c : Citation) :
    c ∈ dateFloorFilter parse floorD cs ↔
      c ∈ cs ∧ ∃ d t, c.date = some d ∧ parse d = some t ∧ floorD ≤ t := by
  rw [dateFloorFilter, List.mem_filter, dateFloorKeep_eq_true_iff]

/-- C8: the date-floor filter is idempotent: applying it twice to any
citation list yields the same result as applying it once. -/
theorem dateFloorFilter_idempotent (parse : String → Option Nat) (floorD : Nat)
    (cs : List Citation) :
    dateFloorFilter parse floorD (dateFloorFilter parse floorD cs) =
      dateFloorFilter parse floorD cs :=
  dateFloorFilter_idem_aux parse floorD cs

/-- A row of the `plate_details` table (`schema.sql`): stored aggregates
plus the JSONB citations array.  `citation_count` is a SQL `INTEGER`,
hence `Int`. -/
structure PlateDetailsRow where
  plate : String
  total_fines : Int
  citation_count : Int
  plate_state : Option String
  favorite_violation : Option String
  citations : List Citation
deriving Repr, DecidableEq

/-- The plate-details result shape returned to the page: the (filtered)
citations together with the recomputed aggregates. -/
structure PlateDetails where
  plate : String
  plate_state : Option String
  favorite_violation : Option String
  all_citations : List Citation
  citation_count : Nat
  total_fines : Int
deriving Repr, DecidableEq

/-- Total fines of a citation list, as computed by
`reduce((sum, c) => sum + (c.fine_amount || 0), 0)` in the source
(missing `fine_amount` counts as 0); the SQL
`COALESCE(SUM(...), 0)` computes the same value. -/
def fineSum (cs : List Citation) : Int :=
  cs.foldl (fun sum c => sum + c.fine_amount.getD 0) 0

/-- Embedding of `fetchPlateDetails` (early revision of `src/lib/db.ts`,
lines 19-45): look the plate up in `plate_details`, keep only citations at
or after the 2025-01-01 floor, and compute `citation_count`/`total_fines`
over the filtered set; `rows[0] || null` becomes `Option`. -/
def fetchPlateDetails (table : List PlateDetailsRow) (plate : String) :
    Option PlateDetails :=
  match table.find? (fun r => r.plate == plate) with
  | none => none
  | some r =>
    let filtered := dateFloorFilter parseTimestamp floor2025 r.citations
    some { plate := r.plate
           plate_state := r.plate_state
           favorite_violation := r.favorite_violation
           all_citations := filtered
           citation_count := filtered.length
           total_fines := fineSum filtered }

/-- The recomputation step of `getPlateDetails`
(`src/app/plate/[plateNumber]/page.tsx` lines 39-51): re-filter
`all_citations` to the 2025-01-01 floor and recompute `citation_count`
and `total_fines` from the filtered set, ignoring the incoming aggregate
fields. -/
def recomputePlateDetails (pd : PlateDetails) : PlateDetails :=
  let citations2025 := dateFloorFilter parseTimestamp floor2025 pd.all_citations
  { pd with
    all_citations := citations2025
    citation_count := citations2025.length
    total_fines := fineSum citations2025 }

/-- Embedding of `getPlateDetails` of `page.tsx`: try the database first
(a database error, `Except.error`, falls through), recompute the
aggregates over the floor-filtered citations, and otherwise fall back to
the per-plate JSON file (again filtered and recomputed); a missing file
yields the not-found sentinel `none`. -/
def getPlateDetails (db : Except Unit (List PlateDetailsRow))
    (files : String → Option PlateDetails) (plateNumber : String) :
    Option PlateDetails :=
  let dbResult : Option PlateDetails :=
    match db with
    | Except.ok table => fetchPlateDetails table plateNumber
    | Except.error _ => none
  match dbResult with
  | some pd => some (recomputePlateDetails pd)
  | none =>
    match files plateNumber with
    | some pd => some (recomputePlateDetails pd)
    | none => none

lemma recomputePlateDetails_spec (pd : PlateDetails) :
    (recomputePlateDetails pd).citation_count =
        (recomputePlateDetails pd).all_citations.length ∧
      (recomputePlateDetails pd).total_fines =
        fineSum (recomputePlateDetails pd).all_citations ∧
      dateFloorFilter parseTimestamp floor2025
          (recomputePlateDetails pd).all_citations =
        (recomputePlateDetails pd).all_citations := by
  refine ⟨rfl, rfl, ?_⟩
  exact dateFloorFilter_idem_aux parseTimestamp floor2025 pd.all_citations

/-- C2: every plate-details result produced by `getPlateDetails` carries
recomputed aggregates: `citation_count` is the length of the filtered
citation list, `total_fines` is the sum of `fine_amount` over it (missing
amounts count as 0), and the list is invariant under the 2025-01-01
date-floor filter (it contains no pre-floor or null-dated citation); the
stored aggregates of the database row are never trusted. -/
theorem getPlateDetails_recomputed_aggregates
    (db : Except Unit (List PlateDetailsRow))
    (files : String → Option PlateDetails) (plateNumber : String)
    (result : PlateDetails)
    (h : getPlateDetails db files plateNumber = some result) :
    result.citation_count = result.all_citations.length ∧
      result.total_fines = fineSum result.all_citations ∧
      dateFloorFilter parseTimestamp floor2025 result.all_citations =
        result.all_citations := by
  have hx : ∃ pd, result = recomputePlateDetails pd := by
    unfold getPlateDetails at h
    dsimp only at h
    split at h
    · exact ⟨_, (Option.some.inj h).symm⟩
    · split at h
      · exact ⟨_, (Option.some.inj h).symm⟩
      · exact absurd h (by simp)
  obtain ⟨pd, rfl⟩ := hx
  exact recomputePlateDetails_spec pd

/-- Sample row used to witness the plate-details theorems on concrete
input. -/
def sampleCitationFeb : Citation :=
  { date := some "2025-02-01T08:30:00"
    violation := "STR CLEAN"
    fine_amount := some 120
    location := "100 MAIN ST"
    citation_number := "900000001"
    latitude := none
    longitude := none }

/-- Sample null-dated citation (excluded by every date floor). -/
def sampleCitationNull : Citation :=
  { date := none
    violation := "METER EXP"
    fine_amount := some 50
    location := "200 MAIN ST"
    citation_number := "900000002"
    latitude := none
    longitude := none }

/-- Sample `plate_details` row for plate `ABC123` with stale stored
aggregates. -/
def sampleRow : PlateDetailsRow :=
  { plate := "ABC123"
    total_fines := 170
    citation_count := 2
    plate_state := some "CA"
    favorite_violation := some "STR CLEAN"
    citations := [sampleCitationNull, sampleCitationFeb] }

/-- The concrete plate-details result that `getPlateDetails` produces on
`sampleRow`: the null-dated citation is dropped and the aggregates are
recomputed over the single surviving citation. -/
def samplePlateResult : PlateDetails :=
  { plate := "ABC123"
    plate_state := some "CA"
    favorite_violation := some "STR CLEAN"
    all_citations := [sampleCitationFeb]
    citation_count := 1
    total_fines := 120 }

/-- Witness for C2: on a concrete store holding plate `ABC123` with a
null-dated citation and one dated `2025-02-01`, the result of
`getPlateDetails` satisfies the recomputed-aggregate property. -/
theorem getPlateDetails_recomputed_aggregates_wit :
    getPlateDetails (Except.ok [sampleRow]) (fun _ => none) "ABC123" =
        some samplePlateResult ∧
      samplePlateResult.citation_count = samplePlateResult.all_citations.length ∧
      samplePlateResult.total_fines = fineSum samplePlateResult.all_citations ∧
      dateFloorFilter parseTimestamp floor2025 samplePlateResult.all_citations =
        samplePlateResult.all_citations :=
  ⟨by decide,
   getPlateDetails_recomputed_aggregates (Except.ok [sampleRow]) (fun _ => none)
     "ABC123" samplePlateResult (by decide)⟩

/-- C7: a plate absent from the plate store is answered with the
not-found sentinel `none`, both by the database query
(`rows[0] || null`) and by the page wrapper after the file fallback also
misses; no error is raised and no empty record is fabricated. -/
theorem getPlateDetails_absent_none (table : List PlateDetailsRow)
    (files : String → Option PlateDetails) (plateNumber : String)
    (habs : ∀ r ∈ table, r.plate ≠ plateNumber)
    (hfile : files plateNumber = none) :
    fetchPlateDetails table plateNumber = none ∧
      getPlateDetails (Except.ok table) files plateNumber = none := by
  have hfind : table.find? (fun r => r.plate == plateNumber) = none := by
    rw [List.find?_eq_none]
    intro r hr
    simpa using habs r hr
  constructor
  · unfold fetchPlateDetails
    rw [hfind]
  · unfold getPlateDetails fetchPlateDetails
    dsimp only
    rw [hfind, hfile]

/-- Witness for C7: plate `ZZZ999` is absent from the concrete store and
from the fallback files, and `getPlateDetails` returns `none`. -/
theorem getPlateDetails_absent_none_wit :
    fetchPlateDetails [sampleRow] "ZZZ999" = none ∧
      getPlateDetails (Except.ok [sampleRow]) (fun _ => none) "ZZZ999" = none :=
  getPlateDetails_absent_none [sampleRow] (fun _ => none) "ZZZ999"
    (by decide) rfl

/-- The effective year of the later `db.ts` revision
(`const yearToUse = year || '2025'`, lines 141 and 210): an absent or
empty (falsy) year argument defaults to `"2025"`. -/
def yearToUse (year : Option String) : String :=
  match year with
  | none => "2025"
  | some y => if y = "" then "2025" else y

/-- The `monthMap` object literal of `db.ts` (lines 185-190) and of the
citations API route: the twelve valid month codes map to
`YYYY-MM` date string beginnings; every other key is absent
(`undefined`, dropped by `.filter(Boolean)`). -/
def monthMap (y : String) (m : String) : Option String :=
  if m = "01" then some (y ++ "-01")
  else if m = "02" then some (y ++ "-02")
  else if m = "03" then some (y ++ "-03")
  else if m = "04" then some (y ++ "-04")
  else if m = "05" then some (y ++ "-05")
  else if m = "06" then some (y ++ "-06")
  else if m = "07" then some (y ++ "-07")
  else if m = "08" then some (y ++ "-08")
  else if m = "09" then some (y ++ "-09")
  else if m = "10" then some (y ++ "-10")
  else if m = "11" then some (y ++ "-11")
  else if m = "12" then some (y ++ "-12")
  else none

/-- Character-wise date-string-beginning test, the semantics of the
JavaScript `date.startsWith(s)` calls in the source. -/
def strStartsWith (s pre : String) : Bool :=
  pre.data.isPrefixOf s.data

/-- The year filter of `db.ts` (lines 176-181 and 230-236): when the
effective year is truthy (non-empty), keep only citations whose non-null
date string starts with it. -/
def yearFilterStep (y : String) (cs : List Citation) : List Citation :=
  if y ≠ "" then
    cs.filter (fun c =>
      match c.date with
      | none => false
      | some d => strStartsWith d y)
  else cs

/-- The month filter of `db.ts` (lines 184-199 and 238-253) and of the
citations API route (lines 98-107): when at least one month was requested
and at least one of the requested codes is valid, keep only citations
whose non-null date string starts with one of the month date-string
beginnings (OR across the selected months); otherwise leave the list
unchanged. -/
def monthFilterStep (y : String) (months : List String) (cs : List Citation) :
    List Citation :=
  if months ≠ [] then
    if months.filterMap (monthMap y) ≠ [] then
      cs.filter (fun c =>
        match c.date with
        | none => false
        | some d => (months.filterMap (monthMap y)).any (fun p => strStartsWith d p))
    else cs
  else cs

/-- The complete JavaScript post-filter of the later `db.ts` revision:
the year filter followed by the month filter, both under the effective
year. -/
def filterCitationsByMonths (cs : List Citation) (months : List String)
    (year : Option String) : List Citation :=
  monthFilterStep (yearToUse year) months (yearFilterStep (yearToUse year) cs)

/-- Embedding of `fetchPlateCitations` (later revision of `src/lib/db.ts`,
lines 209-264): the SQL subquery keeps citations at or after the
2020-01-01 floor (`jsonb_agg` over the empty set yields SQL `NULL`, which
the JavaScript `if (!citations ...) return null` guard turns into the
`none` result), and the year/month post-filter is applied to the
non-empty floor-filtered list. -/
def fetchPlateCitations (table : List PlateDetailsRow) (plate : String)
    (months : List String) (year : Option String) : Option (List Citation) :=
  match table.find? (fun r => r.plate == plate) with
  | none => none
  | some r =>
    let citations := dateFloorFilter parseTimestamp floor2020 r.citations
    if citations.isEmpty then none
    else some (filterCitationsByMonths citations months year)

/-- Embedding of the later revision of `fetchPlateDetails`
(`src/lib/db.ts` lines 139-207): SQL filters to the 2020-01-01 floor and
computes the aggregates; when the floor-filtered array is non-empty
(SQL `NULL` otherwise, skipping the JavaScript block), the year/month
post-filter runs and `citation_count`/`total_fines` are recomputed over
its output. -/
def fetchPlateDetailsV3 (table : List PlateDetailsRow) (plate : String)
    (months : List String) (year : Option String) : Option PlateDetails :=
  match table.find? (fun r => r.plate == plate) with
  | none => none
  | some r =>
    let base := dateFloorFilter parseTimestamp floor2020 r.citations
    if base.isEmpty then
      some { plate := r.plate
             plate_state := r.plate_state
             favorite_violation := r.favorite_violation
             all_citations := []
             citation_count := 0
             total_fines := 0 }
    else
      let filtered := filterCitationsByMonths base months year
      some { plate := r.plate
             plate_state := r.plate_state
             favorite_violation := r.favorite_violation
             all_citations := filtered
             citation_count := filtered.length
             total_fines := fineSum filtered }

lemma monthFilterStep_nil (y : String) (cs : List Citation) :
    monthFilterStep y [] cs = cs := by
  simp [monthFilterStep]

lemma yearFilterStep_mem_iff (y : String) (cs : List Citation) (c : Citation)
    (hy : y ≠ "") :
    c ∈ yearFilterStep y cs ↔
      c ∈ cs ∧ ∃ d, c.date = some d ∧ strStartsWith d y = true := by
  unfold yearFilterStep
  rw [if_pos hy, List.mem_filter]
  refine and_congr_right fun _ => ?_
  cases hc : c.date with
  | none => simp
  | some d => simp

lemma monthFilterStep_mem_iff (y : String) (months : List String)
    (cs : List Citation) (c : Citation) :
    c ∈ monthFilterStep y months cs ↔
      c ∈ cs ∧
        (months = [] ∨ months.filterMap (monthMap y) = [] ∨
          ∃ d, c.date = some d ∧
            ∃ p ∈ months.filterMap (monthMap y), strStartsWith d p = true) := by
  unfold monthFilterStep
  by_cases hm : months = []
  · simp [hm]
  · rw [if_pos hm]
    by_cases hp : months.filterMap (monthMap y) = []
    · simp [hp]
    · rw [if_pos hp, List.mem_filter]
      refine and_congr_right fun _ => ?_
      cases hc : c.date with
      | none => simp [hm, hp]
      | some d =>
        simp only [hc, hm, hp, List.any_eq_true, List.mem_filterMap,
          Option.some.injEq, false_or, exists_eq_left']

lemma yearToUse_ne_empty (year : Option String) : yearToUse year ≠ "" := by
  unfold yearToUse
  cases year with
  | none => simp
  | some y => by_cases hy : y = "" <;> simp [hy]

lemma mem_filterCitationsByMonths_year (cs : List Citation)
    (months : List String) (year : Option String) (c : Citation)
    (h : c ∈ filterCitationsByMonths cs months year) :
    ∃ d, c.date = some d ∧ strStartsWith d (yearToUse year) = true := by
  unfold filterCitationsByMonths at h
  have h2 := (monthFilterStep_mem_iff _ _ _ _).mp h
  have h3 := (yearFilterStep_mem_iff (yearToUse year) cs c
    (yearToUse_ne_empty year)).mp h2.1
  exact h3.2

lemma monthFilterStep_invalid (y : String) (months : List String)
    (cs : List Citation) (h : ∀ m ∈ months, monthMap y m = none) :
    monthFilterStep y months cs = cs := by
  simp [monthFilterStep, List.filterMap_eq_nil_iff.mpr h]

lemma filterCitationsByMonths_invalid (cs : List Citation)
    (months : List String) (year : Option String)
    (h : ∀ m ∈ months, monthMap (yearToUse year) m = none) :
    filterCitationsByMonths cs months year =
      filterCitationsByMonths cs [] year := by
  unfold filterCitationsByMonths
  rw [monthFilterStep_nil, monthFilterStep_invalid _ _ _ h]

/-- Sample citation dated in September 2025, inside the `2025-09` month
window. -/
def sampleCitationSept : Citation :=
  { date := some "2025-09-15T10:00:00"
    violation := "NO PARK"
    fine_amount := some 108
    location := "652 PACIFIC AVE"
    citation_number := "900000003"
    latitude := none
    longitude := none }

/-- Sample citation dated on the last second of August 2025: it passes
every date floor but is outside the `2025-09` month window. -/
def sampleCitationAug : Citation :=
  { date := some "2025-08-31T23:59:59"
    violation := "NO PARK"
    fine_amount := some 96
    location := "700 VALLEJO ST"
    citation_number := "900000004"
    latitude := none
    longitude := none }

/-- Sample `plate_details` row for plate `XYZ789` holding the September
and August citations. -/
def sampleRowXYZ : PlateDetailsRow :=
  { plate := "XYZ789"
    total_fines := 204
    citation_count := 2
    plate_state := some "CA"
    favorite_violation := some "NO PARK"
    citations := [sampleCitationSept, sampleCitationAug] }

/-- C3: the month filters are string beginnings of the form `YYYY-MM`
matched against the citation's ISO date string, applied after the
date-floor filter, with OR semantics across the selected months; in
particular, with month code `09` (date-string beginning `2025-09`) and
floor 2020-01-01, a citation dated `2025-09-15T10:00:00` is kept while
one dated `2025-08-31T23:59:59` is excluded by the month filter even
though it passes the floor. -/
theorem monthFilter_or_semantics_after_floor :
    (∀ (y : String) (months : List String) (cs : List Citation) (c : Citation),
      c ∈ monthFilterStep y months cs ↔
        c ∈ cs ∧
          (months = [] ∨ months.filterMap (monthMap y) = [] ∨
            ∃ d, c.date = some d ∧
              ∃ p ∈ months.filterMap (monthMap y), strStartsWith d p = true)) ∧
      monthMap "2025" "09" = some "2025-09" ∧
      dateFloorKeep parseTimestamp floor2020 sampleCitationSept = true ∧
      dateFloorKeep parseTimestamp floor2020 sampleCitationAug = true ∧
      fetchPlateCitations [sampleRowXYZ] "XYZ789" ["09"] none =
        some [sampleCitationSept] :=
  ⟨monthFilterStep_mem_iff, by decide, by decide, by decide, by decide⟩

/-- Sample citation dated in 2024: it passes the 2020-01-01 floor but
does not start with `2025`. -/
def sampleCitation2024 : Citation :=
  { date := some "2024-06-01T12:00:00"
    violation := "RED ZONE"
    fine_amount := some 95
    location := "300 MAIN ST"
    citation_number := "900000005"
    latitude := none
    longitude := none }

/-- Sample `plate_details` row whose only citation is from 2024. -/
def sampleRowOld : PlateDetailsRow :=
  { plate := "OLD111"
    total_fines := 95
    citation_count := 1
    plate_state := some "CA"
    favorite_violation := some "RED ZONE"
    citations := [sampleCitation2024] }

/-- Sample `plate_details` row mixing a 2025 citation with a 2024 one. -/
def sampleRowMix : PlateDetailsRow :=
  { plate := "MIX222"
    total_fines := 215
    citation_count := 2
    plate_state := some "CA"
    favorite_violation := some "STR CLEAN"
    citations := [sampleCitationFeb, sampleCitation2024] }

/-- C9: even when the caller passes no year (and no months), the later
`db.ts` revision still applies the default year `2025` as a date-string
beginning filter: every citation in the result of `fetchPlateCitations`
or `fetchPlateDetailsV3` has a non-null date starting with `2025`, and a
2024 citation that passes the 2020-01-01 floor is nevertheless excluded
(concretely, plate `OLD111` whose single citation is from 2024 yields an
empty citation list). -/
theorem default_year_filter_applied :
    (∀ (table : List PlateDetailsRow) (plate : String) (cs : List Citation),
      fetchPlateCitations table plate [] none = some cs →
        ∀ c ∈ cs, ∃ d, c.date = some d ∧ strStartsWith d "2025" = true) ∧
      (∀ (table : List PlateDetailsRow) (plate : String) (r : PlateDetails),
        fetchPlateDetailsV3 table plate [] none = some r →
          ∀ c ∈ r.all_citations, ∃ d, c.date = some d ∧ strStartsWith d "2025" = true) ∧
      dateFloorKeep parseTimestamp floor2020 sampleCitation2024 = true ∧
      fetchPlateCitations [sampleRowOld] "OLD111" [] none = some [] ∧
      fetchPlateDetailsV3 [sampleRowOld] "OLD111" [] none =
        some { plate := "OLD111"
               plate_state := some "CA"
               favorite_violation := some "RED ZONE"
               all_citations := []
               citation_count := 0
               total_fines := 0 } := by
  refine ⟨?_, ?_, by decide, by decide, by decide⟩
  · intro table plate cs h c hc
    unfold fetchPlateCitations at h
    dsimp only at h
    split at h
    · exact absurd h (by simp)
    · split at h
      · exact absurd h (by simp)
      · rw [← Option.some.inj h] at hc
        exact mem_filterCitationsByMonths_year _ _ _ _ hc
  · intro table plate r h c hc
    unfold fetchPlateDetailsV3 at h
    dsimp only at h
    split at h
    · exact absurd h (by simp)
    · split at h
      · rw [← Option.some.inj h] at hc
        exact absurd hc (by simp)
      · rw [← Option.some.inj h] at hc
        dsimp only at hc
        exact mem_filterCitationsByMonths_year _ _ _ _ hc

/-- Witness for C9: on the concrete mixed store, the theorem applies and
every returned citation of plate `MIX222` starts with `2025`. -/
theorem default_year_filter_applied_wit :
    ∀ c ∈ [sampleCitationFeb],
      ∃ d, Citation.date c = some d ∧ strStartsWith d "2025" = true :=
  default_year_filter_applied.1 [sampleRowMix] "MIX222" [sampleCitationFeb]
    (by decide)

/-- C10: month codes outside `01`..`12` are dropped when the month
date-string beginnings are built, and when every requested code is
invalid the month filter is skipped entirely, so the result equals the
result of the same query with no month filter (all citations passing the
date-floor/year filters) rather than the empty list. -/
theorem invalid_month_codes_skipped :
    (∀ (y : String) (months : List String) (cs : List Citation),
      (∀ m ∈ months, monthMap y m = none) → monthFilterStep y months cs = cs) ∧
      (∀ (table : List PlateDetailsRow) (plate : String) (months : List String)
          (year : Option String),
        (∀ m ∈ months, monthMap (yearToUse year) m = none) →
          fetchPlateCitations table plate months year =
            fetchPlateCitations table plate [] year) := by
  refine ⟨monthFilterStep_invalid, ?_⟩
  intro table plate months year h
  unfold fetchPlateCitations
  cases hf : table.find? (fun r => r.plate == plate) with
  | none => rfl
  | some r =>
    dsimp only
    rw [filterCitationsByMonths_invalid _ _ _ h]

/-- Witness for C10: with the invalid month codes `13` and `00`, the
month filter leaves the list unchanged and the plate query agrees with
the unfiltered query on a concrete store. -/
theorem invalid_month_codes_skipped_wit :
    monthFilterStep "2025" ["13", "00"] [sampleCitationSept] =
        [sampleCitationSept] ∧
      fetchPlateCitations [sampleRowXYZ] "XYZ789" ["13", "00"] none =
        fetchPlateCitations [sampleRowXYZ] "XYZ789" [] none :=
  ⟨invalid_month_codes_skipped.1 "2025" ["13", "00"] [sampleCitationSept]
      (by decide),
   invalid_month_codes_skipped.2 [sampleRowXYZ] "XYZ789" ["13", "00"] none
      (by decide)⟩

/-- A row of the `leaderboard` table (`schema.sql`): `rank` is the
integer primary key. -/
structure LeaderboardEntry where
  rank : Nat
  plate : String
  total_fines : Int
  citation_count : Int
deriving Repr, DecidableEq

/-- Embedding of `fetchLeaderboard` (`src/lib/db.ts` lines 4-17):
`SELECT ... FROM leaderboard ORDER BY rank ASC LIMIT limit`, over a table
held as an unordered row list. -/
def fetchLeaderboard (table : List LeaderboardEntry) (limit : Nat) :
    List LeaderboardEntry :=
  (table.mergeSort (fun a b => decide (a.rank ≤ b.rank))).take limit

/-- Embedding of `getLeaderboardData` of the home page: try
`fetchLeaderboard(30)`; on a database error fall back to the static
`leaderboard.json` file and keep its first 30 entries; if reading the
file fails as well, return the empty list. -/
def getLeaderboardData (db : Except Unit (List LeaderboardEntry))
    (fallbackFile : Except Unit (List LeaderboardEntry)) :
    List LeaderboardEntry :=
  match db with
  | Except.ok table => fetchLeaderboard table 30
  | Except.error _ =>
    match fallbackFile with
    | Except.ok allData => allData.take 30
    | Except.error _ => []

/-- C4: when the database is unreachable, `getLeaderboardData` returns
exactly the first 30 entries of the static fallback file in their
original order, and when the fallback file is also unreadable it returns
the empty list, surfacing no error in either case. -/
theorem getLeaderboardData_db_unreachable
    (fileData : List LeaderboardEntry) :
    getLeaderboardData (Except.error ()) (Except.ok fileData) =
        fileData.take 30 ∧
      getLeaderboardData (Except.error ()) (Except.error ()) = [] :=
  ⟨rfl, rfl⟩

/-- C6: `fetchLeaderboard` returns at most `limit` rows, sorted ascending
by rank, and when the table respects its primary key (pairwise distinct
ranks) the returned rows are unique by rank. -/
theorem fetchLeaderboard_ordered_unique (table : List LeaderboardEntry)
    (limit : Nat) :
    (fetchLeaderboard table limit).length ≤ limit ∧
      (fetchLeaderboard table limit).Pairwise (fun a b => a.rank ≤ b.rank) ∧
      ((table.map LeaderboardEntry.rank).Nodup →
        ((fetchLeaderboard table limit).map LeaderboardEntry.rank).Nodup) := by
  refine ⟨?_, ?_, ?_⟩
  · rw [fetchLeaderboard, List.length_take]
    exact min_le_left _ _
  · have hs := @List.sorted_mergeSort LeaderboardEntry
      (fun a b => decide (a.rank ≤ b.rank))
      (fun a b c h1 h2 => by
        simp only [decide_eq_true_eq] at h1 h2 ⊢
        exact le_trans h1 h2)
      (fun a b => by
        simp only [Bool.or_eq_true, decide_eq_true_eq]
        exact Nat.le_total a.rank b.rank)
      table
    have hs2 : (table.mergeSort
        (fun a b => decide (a.rank ≤ b.rank))).Pairwise
          (fun a b => a.rank ≤ b.rank) :=
      hs.imp (fun h => by simpa using h)
    exact hs2.sublist (List.take_sublist _ _)
  · intro hnd
    have hperm : List.Perm
        (table.mergeSort (fun a b => decide (a.rank ≤ b.rank))) table :=
      List.mergeSort_perm table _
    have hnd2 : ((table.mergeSort
        (fun a b => decide (a.rank ≤ b.rank))).map LeaderboardEntry.rank).Nodup :=
      ((hperm.map LeaderboardEntry.rank).nodup_iff).mpr hnd
    rw [fetchLeaderboard, List.map_take]
    exact hnd2.sublist (List.take_sublist _ _)

/-- Sample leaderboard table, deliberately out of order. -/
def sampleLeaderboard : List LeaderboardEntry :=
  [{ rank := 2, plate := "XYZ789", total_fines := 204, citation_count := 2 },
   { rank := 1, plate := "ABC123", total_fines := 170, citation_count := 2 },
   { rank := 3, plate := "OLD111", total_fines := 95, citation_count := 1 }]

/-- Witness for C6: on a concrete three-row table with limit 2, the
returned rows are at most 2, rank-sorted, and unique by rank. -/
theorem fetchLeaderboard_ordered_unique_wit :
    (fetchLeaderboard sampleLeaderboard 2).length ≤ 2 ∧
      (fetchLeaderboard sampleLeaderboard 2).Pairwise
        (fun a b => a.rank ≤ b.rank) ∧
      ((sampleLeaderboard.map LeaderboardEntry.rank).Nodup →
        ((fetchLeaderboard sampleLeaderboard 2).map LeaderboardEntry.rank).Nodup) :=
  fetchLeaderboard_ordered_unique sampleLeaderboard 2

/-- A row of the `citation_hotspots` table (`schema.sql`, plus the
coordinate columns added later). -/
structure HotspotRow where
  location : String
  citation_count : Int
  total_fines : Int
  top_violation : Option String
  violation_breakdown : List (String × Int)
  latitude : Option ℚ
  longitude : Option ℚ
deriving Repr, DecidableEq

/-- The whole database: the three tables of `schema.sql`. -/
structure DbState where
  plate_details : List PlateDetailsRow
  leaderboard : List LeaderboardEntry
  citation_hotspots : List HotspotRow
deriving Repr, DecidableEq

/-- The citation number removed by the one-off SQL script. -/
def removedCitationNumber : String := "1006431882"

/-- First UPDATE of the removal script: on every `plate_details` row whose
citations array contains the targeted citation number, drop the matching
elements from the array, decrement the stored `citation_count` by one, and
subtract the hardcoded 380.00 (38000 cents) from the stored
`total_fines`. -/
def removeCitationFromPlates (rows : List PlateDetailsRow) :
    List PlateDetailsRow :=
  rows.map (fun r =>
    if r.citations.any (fun c => c.citation_number == removedCitationNumber) then
      { r with
        citations := r.citations.filter
          (fun c => c.citation_number != removedCitationNumber)
        citation_count := r.citation_count - 1
        total_fines := r.total_fines - 38000 }
    else r)

/-- Second UPDATE of the removal script: copy the (possibly updated)
stored aggregates of each matching `plate_details` row onto the
leaderboard row of the same plate. -/
def syncLeaderboard (plates : List PlateDetailsRow)
    (lb : List LeaderboardEntry) : List LeaderboardEntry :=
  lb.map (fun l =>
    match plates.find? (fun pd => pd.plate == l.plate) with
    | some pd =>
      if pd.citations.any (fun c => c.citation_number != removedCitationNumber) then
        { l with total_fines := pd.total_fines, citation_count := pd.citation_count }
      else l
    | none => l)

/-- Embedding of the whole removal script (`remove citation #1006431882`):
it updates `plate_details` and `leaderboard` and leaves
`citation_hotspots` untouched (the script contains no statement on that
table). -/
def removeCitationScript (s : DbState) : DbState :=
  { plate_details := removeCitationFromPlates s.plate_details
    leaderboard :=
      syncLeaderboard (removeCitationFromPlates s.plate_details) s.leaderboard
    citation_hotspots := s.citation_hotspots }

/-- The citation removed in the counterexample scenario; its actual fine
is 100.00 (10000 cents), not the script's hardcoded 380.00. -/
def removedCitation652 : Citation :=
  { date := some "2025-04-10T11:00:00"
    violation := "NO PARK"
    fine_amount := some 10000
    location := "652 PACIFIC"
    citation_number := removedCitationNumber
    latitude := none
    longitude := none }

/-- Ten citations at `652 PACIFIC`: the targeted one plus nine others of
80.00 each. -/
def cexCitations : List Citation :=
  removedCitation652 ::
    (["900000101", "900000102", "900000103", "900000104", "900000105",
      "900000106", "900000107", "900000108", "900000109"].map
      (fun n =>
        { date := some "2025-03-01T09:00:00"
          violation := "STR CLEAN"
          fine_amount := some 8000
          location := "652 PACIFIC"
          citation_number := n
          latitude := none
          longitude := none }))

/-- The plate holding the ten `652 PACIFIC` citations. -/
def cexPlate : PlateDetailsRow :=
  { plate := "BAD001"
    total_fines := 82000
    citation_count := 10
    plate_state := some "CA"
    favorite_violation := some "STR CLEAN"
    citations := cexCitations }

/-- The `652 PACIFIC` hotspot row with citation_count 10. -/
def cexHotspot : HotspotRow :=
  { location := "652 PACIFIC"
    citation_count := 10
    total_fines := 82000
    top_violation := some "STR CLEAN"
    violation_breakdown := [("STR CLEAN", 9), ("NO PARK", 1)]
    latitude := none
    longitude := none }

/-- A concrete database in the C5 scenario: the hotspot `652 PACIFIC` has
citation_count 10 and the targeted citation exists. -/
def cexState : DbState :=
  { plate_details := [cexPlate]
    leaderboard :=
      [{ rank := 1, plate := "BAD001", total_fines := 82000, citation_count := 10 }]
    citation_hotspots := [cexHotspot] }

/-- Counterexample to C5 as stated: in the concrete scenario the removal
script leaves the `citation_hotspots` table untouched, so the hotspot
`652 PACIFIC` keeps citation_count 10 (it does not become 9); moreover
the plate row's `total_fines` drops by the hardcoded 380.00 (from 82000
to 44000 cents) although the removed citation's fine_amount is 100.00
(10000 cents). -/
theorem removeCitationScript_hotspot_unchanged_cex :
    cexHotspot.citation_count = 10 ∧
      cexPlate.citations.any
        (fun c => c.citation_number == removedCitationNumber) = true ∧
      (removeCitationScript cexState).citation_hotspots = [cexHotspot] ∧
      (¬ ∃ h ∈ (removeCitationScript cexState).citation_hotspots,
        h.location = "652 PACIFIC" ∧ h.citation_count = 9) ∧
      removedCitation652.fine_amount = some 10000 ∧
      (removeCitationScript cexState).plate_details =
        [{ cexPlate with
            citations := cexCitations.filter
              (fun c => c.citation_number != removedCitationNumber)
            citation_count := 9
            total_fines := 44000 }] ∧
      cexPlate.total_fines - 10000 ≠ 44000 := by
  refine ⟨rfl, by decide, rfl, by decide, rfl, by decide, by decide⟩

/-- C5 (amended): the removal script updates the `plate_details` row that
holds citation number 1006431882: the matching citations are removed from
its array, its stored citation_count drops from 10 to 9, and its stored
total_fines decreases by exactly the script's hardcoded 380.00 (38000
cents); the `citation_hotspots` table — including the `652 PACIFIC` row —
is left completely unchanged. -/
theorem removeCitationScript_plate_update (s : DbState) (r : PlateDetailsRow)
    (hr : r ∈ s.plate_details)
    (hhas : r.citations.any
      (fun c => c.citation_number == removedCitationNumber) = true)
    (hcount : r.citation_count = 10) :
    (∃ r2, r2 ∈ (removeCitationScript s).plate_details ∧
      r2.plate = r.plate ∧
      r2.citations = r.citations.filter
        (fun c => c.citation_number != removedCitationNumber) ∧
      r2.citation_count = 9 ∧
      r2.total_fines = r.total_fines - 38000) ∧
      (removeCitationScript s).citation_hotspots = s.citation_hotspots := by
  constructor
  · refine ⟨{ r with
      citations := r.citations.filter
        (fun c => c.citation_number != removedCitationNumber)
      citation_count := r.citation_count - 1
      total_fines := r.total_fines - 38000 }, ?_, rfl, rfl, ?_, rfl⟩
    · show _ ∈ removeCitationFromPlates s.plate_details
      unfold removeCitationFromPlates
      refine List.mem_map.mpr ⟨r, hr, ?_⟩
      rw [if_pos hhas]
    · rw [hcount]
      norm_num
  · rfl

/-- Witness for the amended C5 on the concrete scenario state. -/
theorem removeCitationScript_plate_update_wit :
    (∃ r2, r2 ∈ (removeCitationScript cexState).plate_details ∧
      r2.plate = cexPlate.plate ∧
      r2.citations = cexPlate.citations.filter
        (fun c => c.citation_number != removedCitationNumber) ∧
      r2.citation_count = 9 ∧
      r2.total_fines = cexPlate.total_fines - 38000) ∧
      (removeCitationScript cexState).citation_hotspots =
        cexState.citation_hotspots :=
  removeCitationScript_plate_update cexState cexPlate (by decide) (by decide)
    (by decide)

end SFParkers
